import Mathlib

/-!
Verification of the task_tracker backend (models.py, serializers.py, views.py).

The data model and the operations are embedded shallowly:

* a database table is a `List` of records; foreign keys are stored as the
  referenced row's integer primary key, resolved with `findTask`;
* dates are modelled as natural numbers (days on a single timeline), so the
  chronological order on dates is the order on `Nat`;
* Python's stable `sorted` is modelled with `List.insertionSort`, which is
  also stable, and a stable sort's output is determined by the comparator
  alone, so the two agree observably;
* fallible request handlers return `Except`.
-/

namespace TaskTracker

/-- Status choices of `Task.STATUS_CHOICES` in models.py. -/
inductive Status where
  | new
  | in_progress
  | completed
  | on_hold
  | canceled
  | overdue
deriving DecidableEq, Repr

/-- Employee model from models.py: name fields, position, department,
hire date.  `middle_name`, `department` and `hired_date` are nullable. -/
structure Employee where
  id : Nat
  last_name : String
  first_name : String
  middle_name : Option String
  position : String
  department : Option String
  hired_date : Option Nat
deriving DecidableEq, Repr

/-- Task model from models.py: title, optional description, optional parent
reference, optional assignee reference, required due date, status.  The two
foreign keys are stored as primary keys of the referenced rows. -/
structure Task where
  id : Nat
  name : String
  description : Option String
  parent_task : Option Nat
  assigned_to : Option Nat
  due_date : Nat
  status : Status
deriving DecidableEq, Repr

/-- Resolve a foreign key to a `Task` row by primary key. -/
def findTask (db : List Task) (i : Nat) : Option Task :=
  db.find? (fun t => t.id == i)

/-- Status of the row reached by joining through `parent_task`, when the
reference is non-null and resolves. -/
def parentStatus (db : List Task) (t : Task) : Option Status :=
  t.parent_task.bind (fun pid => (findTask db pid).map Task.status)

/-- The ORM lookup `status="new", parent_task__status="in_progress"` used by
`ImportantTasksListAPIView.get_queryset` (views.py): the row's own status is
`new` and the join through `parent_task` reaches a row whose status is
`in_progress`; a null `parent_task` never joins. -/
def importantFilter (db : List Task) (t : Task) : Bool :=
  t.status == Status.new && parentStatus db t == some Status.in_progress

/-- `ImportantTasksListAPIView.get_queryset` (views.py): the tasks selected by
`importantFilter`. -/
def importantTasks (db : List Task) : List Task :=
  db.filter (importantFilter db)

/-- C2: a task is in the important-items output iff it is in the database,
its own status is exactly `new`, and its parent reference resolves to a task
whose status is exactly `in_progress`; a task whose parent reference is null
never appears. -/
theorem important_tasks_mem_iff (db : List Task) (t : Task) :
    (t ∈ importantTasks db ↔
       t ∈ db ∧ t.status = Status.new ∧
         ∃ pid p, t.parent_task = some pid ∧ findTask db pid = some p ∧
           p.status = Status.in_progress) ∧
    (t.parent_task = none → t ∉ importantTasks db) := by
  constructor
  · constructor
    · intro h
      rw [importantTasks, List.mem_filter] at h
      obtain ⟨hmem, hf⟩ := h
      rw [importantFilter, Bool.and_eq_true, beq_iff_eq, beq_iff_eq] at hf
      obtain ⟨hstat, hpar⟩ := hf
      refine ⟨hmem, hstat, ?_⟩
      rw [parentStatus] at hpar
      cases hpt : t.parent_task with
      | none => rw [hpt] at hpar; simp at hpar
      | some pid =>
          rw [hpt] at hpar
          simp only [Option.bind_eq_bind, Option.some_bind, Option.map_eq_some'] at hpar
          obtain ⟨p, hfind, hps⟩ := hpar
          exact ⟨pid, p, rfl, hfind, hps⟩
    · rintro ⟨hmem, hstat, pid, p, hpt, hfind, hps⟩
      rw [importantTasks, List.mem_filter]
      refine ⟨hmem, ?_⟩
      rw [importantFilter, Bool.and_eq_true, beq_iff_eq, beq_iff_eq, parentStatus, hpt]
      simp only [Option.bind_eq_bind, Option.some_bind, hfind, Option.map_some']
      exact ⟨hstat, by rw [hps]⟩
  · intro hnone hmem
    rw [importantTasks, List.mem_filter, importantFilter, parentStatus, hnone] at hmem
    obtain ⟨_, hf⟩ := hmem
    simp at hf

/-- Total number of tasks whose assignment references the employee,
unfiltered by status: `Task.objects.filter(assigned_to=employee).count()`
(serializers.py, `get_potential_employees`). -/
def taskCount (db : List Task) (e : Employee) : Nat :=
  (db.filter (fun t => t.assigned_to == some e.id)).length

/-- The loop in `get_potential_employees` computing the minimum total task
count over all employees; `none` when the employee table is empty. -/
def minTaskCount (db : List Task) (employees : List Employee) : Option Nat :=
  employees.foldl
    (fun m e =>
      let c := taskCount db e
      match m with
      | none => some c
      | some m0 => if c < m0 then some c else some m0)
    none

/-- Python `str.strip()`: drop whitespace from both ends. -/
def pyStrip (s : String) : String :=
  String.mk (((s.data.dropWhile Char.isWhitespace).reverse.dropWhile
    Char.isWhitespace).reverse)

/-- Display label built in `get_potential_employees` (serializers.py):
`f"... ID:..."` of serializers.py lines 132-133 (last name, first name,
middle name or empty, then the id) followed by
`.strip()`. -/
def employeeLabel (e : Employee) : String :=
  pyStrip (e.last_name ++ " " ++ e.first_name ++ " " ++ e.middle_name.getD "" ++
    ". ID:" ++ toString e.id)

/-- Whether some row with `parent_task = t` is assigned to `e`: the ORM query
`Task.objects.filter(parent_task=task, assigned_to=employee).exists()` in
`get_potential_employees` (serializers.py, line 127).  Note that this selects
rows whose PARENT is the given task, i.e. the employee works on a child
(subtask) of it. -/
def worksOnChildOf (db : List Task) (t : Task) (e : Employee) : Bool :=
  db.any (fun c => c.parent_task == some t.id && c.assigned_to == some e.id)

/-- `ImportantTaskSerializer.get_potential_employees` (serializers.py):
with an empty employee table the result is `[]`; otherwise an employee whose
total task count equals the minimum, or who works on a child of the task and
whose total count is at most the minimum plus 2, contributes their display
label, deduplicated in first-appearance order. -/
def get_potential_employees (employees : List Employee) (db : List Task)
    (t : Task) : List String :=
  if employees.isEmpty then []
  else
    match minTaskCount db employees with
    | none => []
    | some minc =>
        employees.foldl
          (fun acc e =>
            let tc := taskCount db e
            if tc == minc || (worksOnChildOf db t e && decide (tc ≤ minc + 2)) then
              let lbl := employeeLabel e
              if acc.contains lbl then acc else acc ++ [lbl]
            else acc)
          []

/-- Scenario refuting C1's parent-based reading: employee 1 has no tasks,
employee 2 is assigned the in-progress parent (id 20) of the important task
(id 10). -/
def cexEmpOne : Employee :=
  { id := 1, last_name := "Ivanov", first_name := "Ivan", middle_name := none,
    position := "Dev", department := none, hired_date := none }

/-- Second employee of the C1 scenario, assigned to the parent task. -/
def cexEmpTwo : Employee :=
  { id := 2, last_name := "Petrov", first_name := "Petr", middle_name := none,
    position := "Dev", department := none, hired_date := none }

/-- Parent task of the C1 scenario: in progress, assigned to employee 2. -/
def cexParent : Task :=
  { id := 20, name := "P", description := none, parent_task := none,
    assigned_to := some 2, due_date := 100, status := Status.in_progress }

/-- Important task of the C1 scenario: new, child of `cexParent`,
unassigned. -/
def cexImportant : Task :=
  { id := 10, name := "Q", description := none, parent_task := some 20,
    assigned_to := none, due_date := 200, status := Status.new }

/-- Task table of the C1 scenario. -/
def cexDb : List Task := [cexParent, cexImportant]

/-- C1 (code evaluated at the failing input): `cexImportant` is a qualifying
important task; employee 2 is assigned to its parent and has total count
within the minimum plus 2, so the claim (and the serializer's own docstring)
makes employee 2 eligible; the code, which tests assignment to a child of the
task instead, excludes employee 2 and lists only employee 1. -/
theorem potential_employees_parent_bug :
    importantFilter cexDb cexImportant = true ∧
    cexImportant.parent_task = some cexParent.id ∧
    cexParent.assigned_to = some cexEmpTwo.id ∧
    minTaskCount cexDb [cexEmpOne, cexEmpTwo] = some 0 ∧
    taskCount cexDb cexEmpTwo ≤ 0 + 2 ∧
    get_potential_employees [cexEmpOne, cexEmpTwo] cexDb cexImportant =
      [employeeLabel cexEmpOne] ∧
    employeeLabel cexEmpTwo ∉
      get_potential_employees [cexEmpOne, cexEmpTwo] cexDb cexImportant := by
  decide

/-- Witness for C2's no-parent conjunct at a concrete input: the parent task
of the scenario has a null parent reference, so it is not in the
important-items output. -/
theorem important_tasks_mem_iff_witness :
    cexParent ∉ importantTasks cexDb :=
  (important_tasks_mem_iff cexDb cexParent).2 rfl

/-- Active statuses of the workload ranking: `status__in=["new", "in_progress"]`
(views.py, `BusyEmployeesListAPIView.get_queryset`). -/
def isActive (t : Task) : Bool :=
  t.status == Status.new || t.status == Status.in_progress

/-- `Task.objects.filter(assigned_to=employee, status__in=["new", "in_progress"])`
(views.py line 75). -/
def activeTasks (db : List Task) (e : Employee) : List Task :=
  db.filter (fun t => t.assigned_to == some e.id && isActive t)

/-- Loop body of views.py lines 80-82: keep the smaller due date. -/
def earliestStep (acc : Option Nat) (t : Task) : Option Nat :=
  match acc with
  | none => some t.due_date
  | some d => if t.due_date < d then some t.due_date else some d

/-- The loop of views.py lines 79-82: the least due date over a task list,
`none` when the list is empty. -/
def earliestDueDate (ts : List Task) : Option Nat :=
  ts.foldl earliestStep none

/-- Per-employee record built by `BusyEmployeesListAPIView.get_queryset`
(views.py lines 85-90). -/
structure BusyRecord where
  employee : Employee
  tasks : List Task
  active_task_count : Nat
  earliest_due_date : Option Nat
deriving DecidableEq, Repr

/-- The list `employee_task_data` of views.py lines 73-90, one record per
employee in table order. -/
def employeeTaskData (employees : List Employee) (db : List Task) :
    List BusyRecord :=
  employees.map (fun e =>
    let ts := activeTasks db e
    { employee := e, tasks := ts, active_task_count := ts.length,
      earliest_due_date := earliestDueDate ts })

/-- Order on the second sort-key component `earliest_due_date or "9999-12-31"`
(views.py line 95).  `none` stands for the sentinel string, which follows
every real date; a real date is never compared against the sentinel on data
produced by `employeeTaskData` (see `busy_key_well_defined`), and the
embedding orders real dates before the sentinel, matching the sentinel's
role as a maximal key. -/
def optDateLe : Option Nat → Option Nat → Bool
  | some a, some b => decide (a ≤ b)
  | some _, none => true
  | none, some _ => false
  | none, none => true

/-- The comparison induced by the sort key
`(-active_task_count, earliest_due_date or "9999-12-31")` of views.py
line 95: lexicographic on (negated count, date-with-sentinel). -/
def busyLe (a b : BusyRecord) : Prop :=
  b.active_task_count < a.active_task_count ∨
    (a.active_task_count = b.active_task_count ∧
      optDateLe a.earliest_due_date b.earliest_due_date = true)

instance : DecidableRel busyLe := fun a b => by
  unfold busyLe
  infer_instance

theorem optDateLe_total (a b : Option Nat) :
    optDateLe a b = true ∨ optDateLe b a = true := by
  cases a <;> cases b <;> simp [optDateLe] <;> omega

theorem optDateLe_trans {a b c : Option Nat} (h1 : optDateLe a b = true)
    (h2 : optDateLe b c = true) : optDateLe a c = true := by
  cases a <;> cases b <;> cases c <;> simp [optDateLe] at * <;> omega

theorem optDateLe_none_left {o : Option Nat} (h : optDateLe none o = true) :
    o = none := by
  cases o with
  | none => rfl
  | some a => simp [optDateLe] at h

instance : IsTotal BusyRecord busyLe := by
  constructor
  intro a b
  rcases Nat.lt_trichotomy a.active_task_count b.active_task_count with h | h | h
  · exact Or.inr (Or.inl h)
  · rcases optDateLe_total a.earliest_due_date b.earliest_due_date with hd | hd
    · exact Or.inl (Or.inr ⟨h, hd⟩)
    · exact Or.inr (Or.inr ⟨h.symm, hd⟩)
  · exact Or.inl (Or.inl h)

instance : IsTrans BusyRecord busyLe := by
  constructor
  intro a b c hab hbc
  rcases hab with h1 | ⟨h1, d1⟩
  · rcases hbc with h2 | ⟨h2, _⟩
    · exact Or.inl (Nat.lt_trans h2 h1)
    · exact Or.inl (h2 ▸ h1)
  · rcases hbc with h2 | ⟨h2, d2⟩
    · exact Or.inl (h1 ▸ h2)
    · exact Or.inr ⟨h1.trans h2, optDateLe_trans d1 d2⟩

/-- The call `sorted(employee_task_data, key=...)` of views.py lines 93-96.
Python's `sorted` is a stable sort; `List.insertionSort` is also stable, and
stable sorts agree on every input for a fixed total preorder. -/
def sortedEmployeeData (employees : List Employee) (db : List Task) :
    List BusyRecord :=
  List.insertionSort busyLe (employeeTaskData employees db)

/-- The returned value of `BusyEmployeesListAPIView.get_queryset` (views.py
line 99): the employees of the sorted records. -/
def busyEmployees (employees : List Employee) (db : List Task) :
    List Employee :=
  (sortedEmployeeData employees db).map BusyRecord.employee

theorem mem_employeeTaskData {employees : List Employee} {db : List Task}
    {r : BusyRecord} (hr : r ∈ employeeTaskData employees db) :
    r.employee ∈ employees ∧ r.tasks = activeTasks db r.employee ∧
      r.active_task_count = (activeTasks db r.employee).length ∧
      r.earliest_due_date = earliestDueDate (activeTasks db r.employee) := by
  rw [employeeTaskData, List.mem_map] at hr
  obtain ⟨e, he, hrec⟩ := hr
  subst hrec
  exact ⟨he, rfl, rfl, rfl⟩

theorem mem_sortedEmployeeData {employees : List Employee} {db : List Task}
    {r : BusyRecord} (hr : r ∈ sortedEmployeeData employees db) :
    r ∈ employeeTaskData employees db :=
  (List.perm_insertionSort busyLe (employeeTaskData employees db)).mem_iff.mp hr

/-- C3: along the ranking output, the active-item count is non-increasing,
and among employees tied on that count the earliest active due date is
non-decreasing, an absent earliest date (no active items) never preceding a
real one within a tie. -/
theorem busy_ranking_sorted (employees : List Employee) (db : List Task) :
    List.Pairwise
      (fun e1 e2 : Employee =>
        (activeTasks db e2).length ≤ (activeTasks db e1).length ∧
        ((activeTasks db e1).length = (activeTasks db e2).length →
          optDateLe (earliestDueDate (activeTasks db e1))
              (earliestDueDate (activeTasks db e2)) = true ∧
          (earliestDueDate (activeTasks db e1) = none →
            earliestDueDate (activeTasks db e2) = none)))
      (busyEmployees employees db) := by
  rw [busyEmployees, List.pairwise_map]
  have hs : List.Pairwise busyLe (sortedEmployeeData employees db) :=
    List.sorted_insertionSort busyLe (employeeTaskData employees db)
  refine hs.imp_of_mem ?_
  intro a b ha hb hab
  obtain ⟨_, _, hca, hda⟩ := mem_employeeTaskData (mem_sortedEmployeeData ha)
  obtain ⟨_, _, hcb, hdb⟩ := mem_employeeTaskData (mem_sortedEmployeeData hb)
  constructor
  · rcases hab with h | ⟨h, _⟩
    · rw [← hca, ← hcb]
      exact Nat.le_of_lt h
    · rw [← hca, ← hcb, h]
  · intro heq
    rcases hab with h | ⟨h, hd⟩
    · rw [← hca, ← hcb] at heq
      omega
    · rw [← hda, ← hdb]
      refine ⟨hd, ?_⟩
      intro hnone
      exact optDateLe_none_left (hnone ▸ hd)

/-- Witness for C3 at a concrete input: two employees, one with two active
tasks and one with none. -/
theorem busy_ranking_sorted_witness :
    List.Pairwise
      (fun e1 e2 : Employee =>
        (activeTasks cexDb e2).length ≤ (activeTasks cexDb e1).length ∧
        ((activeTasks cexDb e1).length = (activeTasks cexDb e2).length →
          optDateLe (earliestDueDate (activeTasks cexDb e1))
              (earliestDueDate (activeTasks cexDb e2)) = true ∧
          (earliestDueDate (activeTasks cexDb e1) = none →
            earliestDueDate (activeTasks cexDb e2) = none)))
      (busyEmployees [cexEmpOne, cexEmpTwo] cexDb) :=
  busy_ranking_sorted [cexEmpOne, cexEmpTwo] cexDb

/-- Nested parent payload produced by `TaskSummarySerializer.get_parent_task`
(serializers.py lines 48-55). -/
structure ParentInfo where
  id : Nat
  name : String
  due_date : Nat
deriving DecidableEq, Repr

/-- Row shape produced by `TaskSummarySerializer` (serializers.py). -/
structure TaskSummary where
  id : Nat
  name : String
  due_date : Nat
  status : Status
  parent_task : Option ParentInfo
deriving DecidableEq, Repr

/-- `TaskSummarySerializer` on one task: the parent payload is present when
the parent reference resolves, else null. -/
def taskSummary (db : List Task) (t : Task) : TaskSummary :=
  { id := t.id, name := t.name, due_date := t.due_date, status := t.status,
    parent_task :=
      (t.parent_task.bind (findTask db)).map
        (fun p => { id := p.id, name := p.name, due_date := p.due_date }) }

/-- Row shape produced by `BusyEmployeeSerializer` (serializers.py
lines 62-80). -/
structure BusyEmployeeOut where
  id : Nat
  last_name : String
  first_name : String
  middle_name : Option String
  position : String
  hired_date : Option Nat
  active_task_count : Nat
  tasks : List TaskSummary
deriving DecidableEq, Repr

/-- `BusyEmployeeSerializer` on one employee: both `tasks` and
`active_task_count` re-run the active-task query
`Task.objects.filter(assigned_to=employee, status__in=["new", "in_progress"])`. -/
def busyEmployeeSerialize (db : List Task) (e : Employee) : BusyEmployeeOut :=
  let ts := activeTasks db e
  { id := e.id, last_name := e.last_name, first_name := e.first_name,
    middle_name := e.middle_name, position := e.position,
    hired_date := e.hired_date, active_task_count := ts.length,
    tasks := ts.map (taskSummary db) }

/-- C9: every employee of the table appears in the ranking output, and an
employee with no active items is serialized with count 0 and an empty task
list. -/
theorem busy_ranking_complete (employees : List Employee) (db : List Task)
    (e : Employee) (he : e ∈ employees) :
    e ∈ busyEmployees employees db ∧
      (activeTasks db e = [] →
        (busyEmployeeSerialize db e).active_task_count = 0 ∧
        (busyEmployeeSerialize db e).tasks = []) := by
  constructor
  · have hrec :
        ({ employee := e, tasks := activeTasks db e,
           active_task_count := (activeTasks db e).length,
           earliest_due_date := earliestDueDate (activeTasks db e) } :
          BusyRecord) ∈ employeeTaskData employees db := by
      rw [employeeTaskData, List.mem_map]
      exact ⟨e, he, rfl⟩
    have hsorted := (List.perm_insertionSort busyLe
      (employeeTaskData employees db)).mem_iff.mpr hrec
    rw [busyEmployees, List.mem_map]
    exact ⟨_, hsorted, rfl⟩
  · intro h
    rw [busyEmployeeSerialize]
    simp only [h]
    exact ⟨rfl, rfl⟩

/-- Witness for C9 at a concrete input: `cexEmpOne` has no active tasks in
`cexDb` restricted to assignments, so it is listed with count 0 and an empty
task list. -/
theorem busy_ranking_complete_witness :
    cexEmpOne ∈ busyEmployees [cexEmpOne, cexEmpTwo] cexDb ∧
      (activeTasks cexDb cexEmpOne = [] →
        (busyEmployeeSerialize cexDb cexEmpOne).active_task_count = 0 ∧
        (busyEmployeeSerialize cexDb cexEmpOne).tasks = []) :=
  busy_ranking_complete [cexEmpOne, cexEmpTwo] cexDb cexEmpOne (by decide)

theorem earliest_foldl_ne_none (l : List Task) (d : Nat) :
    l.foldl earliestStep (some d) ≠ none := by
  induction l generalizing d with
  | nil => simp
  | cons t l ih =>
      rw [List.foldl_cons]
      by_cases h : t.due_date < d
      · simpa [earliestStep, h] using ih t.due_date
      · simpa [earliestStep, h] using ih d

theorem earliestDueDate_eq_none_iff (ts : List Task) :
    earliestDueDate ts = none ↔ ts = [] := by
  constructor
  · intro h
    cases ts with
    | nil => rfl
    | cons t ts' =>
        exfalso
        rw [earliestDueDate, List.foldl_cons] at h
        exact earliest_foldl_ne_none ts' t.due_date (by simpa [earliestStep] using h)
  · intro h
    subst h
    rfl

/-- C10: in the records built by the ranking, the earliest due date is absent
exactly when the active count is 0, so two records tied on count always carry
the same kind of second key component (two real dates or two sentinels) and
the sort key comparison of views.py line 95 is well-defined on every input. -/
theorem busy_key_well_defined (employees : List Employee) (db : List Task)
    (r1 r2 : BusyRecord) (h1 : r1 ∈ employeeTaskData employees db)
    (h2 : r2 ∈ employeeTaskData employees db) :
    (r1.active_task_count = 0 ↔ r1.earliest_due_date = none) ∧
    (r1.active_task_count = r2.active_task_count →
      (r1.earliest_due_date = none ↔ r2.earliest_due_date = none)) := by
  obtain ⟨_, _, hc1, hd1⟩ := mem_employeeTaskData h1
  obtain ⟨_, _, hc2, hd2⟩ := mem_employeeTaskData h2
  have key1 : r1.active_task_count = 0 ↔ r1.earliest_due_date = none := by
    rw [hc1, hd1, List.length_eq_zero, earliestDueDate_eq_none_iff]
  have key2 : r2.active_task_count = 0 ↔ r2.earliest_due_date = none := by
    rw [hc2, hd2, List.length_eq_zero, earliestDueDate_eq_none_iff]
  refine ⟨key1, ?_⟩
  intro heq
  rw [← key1, ← key2, heq]

/-- First record built over `cexDb`: employee 1, no active tasks. -/
def cexRecOne : BusyRecord :=
  { employee := cexEmpOne, tasks := [], active_task_count := 0,
    earliest_due_date := none }

/-- Second record built over `cexDb`: employee 2, one active task. -/
def cexRecTwo : BusyRecord :=
  { employee := cexEmpTwo, tasks := [cexParent], active_task_count := 1,
    earliest_due_date := some 100 }

/-- Witness for C10 at a concrete input: the two records built over `cexDb`
for the two concrete employees. -/
theorem busy_key_well_defined_witness :
    (cexRecOne.active_task_count = 0 ↔ cexRecOne.earliest_due_date = none) ∧
    (cexRecOne.active_task_count = cexRecTwo.active_task_count →
      (cexRecOne.earliest_due_date = none ↔
        cexRecTwo.earliest_due_date = none)) :=
  busy_key_well_defined [cexEmpOne, cexEmpTwo] cexDb cexRecOne cexRecTwo
    (by decide) (by decide)

/-- Allow-listed equality filters of `TaskListAPIView.filterset_fields`
(views.py line 119). -/
def taskAllowedFilters : List String :=
  ["assigned_to", "status", "parent_task", "due_date"]

/-- Allow-listed equality filters of `EmployeeListAPIView.filterset_fields`
(views.py line 28). -/
def employeeAllowedFilters : List String :=
  ["position", "department", "hired_date"]

/-- Payload of the `ValidationError` raised by `TaskListAPIView.get_queryset`
(views.py lines 148-150): the offending field names and the allowed set. -/
structure FilterError where
  invalid : List String
  allowed : List String
deriving DecidableEq, Repr

/-- Rendering of the error text of views.py lines 149-150. -/
def filterErrorMessage (err : FilterError) : String :=
  "Фильтрация по полю(-ям) " ++ String.intercalate ", " err.invalid ++
    " невозможна. Доступные поля для фильтрации: " ++
    String.intercalate ", " err.allowed

/-- The set difference of views.py lines 144-146:
`set(query_params) minus the two subtree parameter names minus
allowed_filters`,
as a duplicate-free list of parameter names. -/
def invalidTaskFilters (params : List (String × String)) : List String :=
  ((params.map Prod.fst).filter
    (fun k => !(k == "subtasks") && !(k == "has_parent") &&
      !(decide (k ∈ taskAllowedFilters)))).dedup

/-- `QueryDict.get` on the model's parameter list. -/
def lookupParam (params : List (String × String)) (k : String) :
    Option String :=
  (params.find? (fun p => p.fst == k)).map Prod.snd

/-- The base queryset `Task.objects.all().order_by("id")` of views.py
line 115. -/
def sortById (db : List Task) : List Task :=
  List.insertionSort (fun a b : Task => a.id ≤ b.id) db

/-- Whether some row's parent reference points at `t`: the join behind
`filter(subtasks__isnull=False)` (views.py line 156); `distinct()` collapses
the duplicate joined rows, so the result is the plain filter below. -/
def hasSubtaskRow (db : List Task) (t : Task) : Bool :=
  db.any (fun c => c.parent_task == some t.id)

/-- Python `str.lower()` for the boolean filter literals, over the model's
character list. -/
def pyLower (s : String) : String :=
  String.mk (s.data.map Char.toLower)

/-- `TaskListAPIView.get_queryset` (views.py lines 140-168): reject the query
when it names a filter field outside the allow-list (the `subtasks` and
`has_parent` parameters excepted), then apply the two boolean subtree
filters; a boolean parameter whose lowercased value is outside
`true/1/false/0` is ignored.  The allow-listed equality filters themselves
are applied afterwards by the filter backend and are outside this
function. -/
def taskListBoolFilters (params : List (String × String)) (db : List Task) :
    List Task :=
  let qs0 := sortById db
  let qs1 :=
    match lookupParam params "subtasks" with
    | some v =>
        if pyLower v == "true" || pyLower v == "1" then
          qs0.filter (hasSubtaskRow db)
        else if pyLower v == "false" || pyLower v == "0" then
          qs0.filter (fun t => !hasSubtaskRow db t)
        else qs0
    | none => qs0
  match lookupParam params "has_parent" with
  | some v =>
      if pyLower v == "true" || pyLower v == "1" then
        qs1.filter (fun t => t.parent_task.isSome)
      else if pyLower v == "false" || pyLower v == "0" then
        qs1.filter (fun t => t.parent_task.isNone)
      else qs1
  | none => qs1

/-- Body of `TaskListAPIView.get_queryset`: the truthiness test
`if invalid_filters:` of views.py line 148 is emptiness of the set
difference. -/
def taskListGetQueryset (params : List (String × String)) (db : List Task) :
    Except FilterError (List Task) :=
  if invalidTaskFilters params = [] then
    Except.ok (taskListBoolFilters params db)
  else
    Except.error
      { invalid := invalidTaskFilters params, allowed := taskAllowedFilters }

/-- `EmployeeListAPIView` (views.py lines 20-28) is purely declarative: it
sets `filterset_fields = ["position", "department", "hired_date"]` and
defines no query-parameter validation of its own.  The filter backend
(django-filter) applies the declared equality filters and silently ignores
any query parameter that names no declared filter, so this endpoint never
rejects a query; dates are rendered in the model as decimal day numbers for
the equality comparison. -/
def employeeListQuery (params : List (String × String))
    (employees : List Employee) : Except FilterError (List Employee) :=
  Except.ok (params.foldl
    (fun qs p =>
      if p.fst == "position" then qs.filter (fun e => e.position == p.snd)
      else if p.fst == "department" then
        qs.filter (fun e => e.department == some p.snd)
      else if p.fst == "hired_date" then
        qs.filter (fun e => e.hired_date.map toString == some p.snd)
      else qs)
    employees)

/-- Concrete employee used by the C4 counterexample. -/
def cexEmpPlain : Employee :=
  { id := 7, last_name := "Sidorov", first_name := "Semen",
    middle_name := none, position := "QA", department := none,
    hired_date := none }

/-- C4 (counterexample): the claim says the Worker list endpoint, like the
WorkItem one, rejects a query naming a filter field outside its allow-list.
It does not: `foo` is outside the Worker allow-list, yet the query succeeds
and returns results. -/
theorem employee_list_no_rejection_cex :
    ¬ ("foo" ∈ employeeAllowedFilters) ∧
    employeeListQuery [("foo", "bar")] [cexEmpPlain] =
      Except.ok [cexEmpPlain] :=
  ⟨by decide, rfl⟩

/-- C4 (amended): a WorkItem list query naming a filter field outside the
allow-list (other than the two boolean subtree parameters) is rejected with
an error carrying the offending field and the allowed set, and no result
list is produced; the Worker list endpoint instead ignores unrecognised
parameters and always returns a result list. -/
theorem task_list_filter_rejection (params : List (String × String))
    (db : List Task) (k : String) (hk : k ∈ params.map Prod.fst)
    (hk1 : k ≠ "subtasks") (hk2 : k ≠ "has_parent")
    (hk3 : k ∉ taskAllowedFilters) :
    (∃ err : FilterError,
      taskListGetQueryset params db = Except.error err ∧
      k ∈ err.invalid ∧ err.allowed = taskAllowedFilters ∧
      ∀ out : List Task, taskListGetQueryset params db ≠ Except.ok out) ∧
    (∀ (ps : List (String × String)) (es : List Employee),
      ∃ out : List Employee, employeeListQuery ps es = Except.ok out) := by
  have hkinv : k ∈ invalidTaskFilters params := by
    rw [invalidTaskFilters, List.mem_dedup, List.mem_filter]
    refine ⟨hk, ?_⟩
    have h1 : (k == "subtasks") = false := beq_false_of_ne hk1
    have h2 : (k == "has_parent") = false := beq_false_of_ne hk2
    have h3 : decide (k ∈ taskAllowedFilters) = false := decide_eq_false hk3
    rw [h1, h2, h3]
    rfl
  have hne : invalidTaskFilters params ≠ [] := by
    intro h
    rw [h] at hkinv
    exact List.not_mem_nil k hkinv
  have herr : taskListGetQueryset params db =
      Except.error
        { invalid := invalidTaskFilters params,
          allowed := taskAllowedFilters } := by
    rw [taskListGetQueryset, if_neg hne]
  constructor
  · refine ⟨_, herr, hkinv, rfl, ?_⟩
    intro out hout
    rw [herr] at hout
    cases hout
  · intro ps es
    exact ⟨_, rfl⟩

/-- Witness for C4's amended theorem: the parameter name `foo` on the task
list endpoint. -/
theorem task_list_filter_rejection_witness :
    (∃ err : FilterError,
      taskListGetQueryset [("foo", "bar")] cexDb = Except.error err ∧
      "foo" ∈ err.invalid ∧ err.allowed = taskAllowedFilters ∧
      ∀ out : List Task,
        taskListGetQueryset [("foo", "bar")] cexDb ≠ Except.ok out) ∧
    (∀ (ps : List (String × String)) (es : List Employee),
      ∃ out : List Employee, employeeListQuery ps es = Except.ok out) :=
  task_list_filter_rejection [("foo", "bar")] cexDb "foo" (by decide)
    (by decide) (by decide) (by decide)

/-- C8: on the WorkItem list, the `subtasks` parameter with value `true`/`1`
keeps exactly the items with at least one child and with `false`/`0` exactly
the items with none; the `has_parent` parameter with `true`/`1` keeps the
items whose parent reference is non-null and with `false`/`0` those whose
parent reference is null; `hasSubtaskRow` is existence of a child row. -/
theorem subtree_boolean_filters (db : List Task) (v : String) :
    ((v = "true" ∨ v = "1") →
      taskListGetQueryset [("subtasks", v)] db =
        Except.ok ((sortById db).filter (hasSubtaskRow db)) ∧
      taskListGetQueryset [("has_parent", v)] db =
        Except.ok ((sortById db).filter (fun t => t.parent_task.isSome))) ∧
    ((v = "false" ∨ v = "0") →
      taskListGetQueryset [("subtasks", v)] db =
        Except.ok ((sortById db).filter (fun t => !hasSubtaskRow db t)) ∧
      taskListGetQueryset [("has_parent", v)] db =
        Except.ok ((sortById db).filter (fun t => t.parent_task.isNone))) ∧
    (∀ t : Task,
      hasSubtaskRow db t = true ↔ ∃ c ∈ db, c.parent_task = some t.id) ∧
    (∀ t : Task, t.parent_task.isSome = true ↔ t.parent_task ≠ none) := by
  refine ⟨?_, ?_, ?_, ?_⟩
  · rintro (rfl | rfl) <;> exact ⟨rfl, rfl⟩
  · rintro (rfl | rfl) <;> exact ⟨rfl, rfl⟩
  · intro t
    rw [hasSubtaskRow, List.any_eq_true]
    constructor
    · rintro ⟨c, hc, hbeq⟩
      exact ⟨c, hc, by simpa using hbeq⟩
    · rintro ⟨c, hc, hp⟩
      exact ⟨c, hc, by simpa using hp⟩
  · intro t
    cases ht : t.parent_task <;> simp [ht]

/-- Witness for C8 at concrete inputs: `subtasks=true` and `has_parent=0` on
the two-task scenario database. -/
theorem subtree_boolean_filters_witness :
    taskListGetQueryset [("subtasks", "true")] cexDb =
      Except.ok ((sortById cexDb).filter (hasSubtaskRow cexDb)) ∧
    taskListGetQueryset [("has_parent", "0")] cexDb =
      Except.ok ((sortById cexDb).filter (fun t => t.parent_task.isNone)) :=
  ⟨((subtree_boolean_filters cexDb "true").1 (Or.inl rfl)).1,
   ((subtree_boolean_filters cexDb "0").2.1 (Or.inr rfl)).2⟩

/-- Effect on the Task table of deleting an employee row: the declaration
`assigned_to = ForeignKey("Employee", on_delete=models.SET_NULL, ...)`
(models.py lines 64-66) nulls the assignment reference of every task that
referenced the deleted employee and touches nothing else. -/
def deleteEmployeeFromTasks (db : List Task) (eid : Nat) : List Task :=
  db.map (fun t =>
    if t.assigned_to == some eid then { t with assigned_to := none } else t)

/-- C5: deleting an employee keeps every task, at its position, and a task
that referenced the employee survives with its assignment cleared and every
other field unchanged (the record update touches `assigned_to` alone). -/
theorem delete_employee_set_null (db : List Task) (eid : Nat) (i : Nat)
    (t : Task) (ht : db[i]? = some t) (ha : t.assigned_to = some eid) :
    (deleteEmployeeFromTasks db eid).length = db.length ∧
    (deleteEmployeeFromTasks db eid)[i]? =
      some { t with assigned_to := none } := by
  constructor
  · exact List.length_map _ _
  · rw [deleteEmployeeFromTasks, List.getElem?_map, ht]
    simp [ha]

/-- Witness for C5: deleting employee 2 from a one-task table whose task is
assigned to employee 2. -/
theorem delete_employee_set_null_witness :
    (deleteEmployeeFromTasks [cexParent] 2).length = [cexParent].length ∧
    (deleteEmployeeFromTasks [cexParent] 2)[0]? =
      some { cexParent with assigned_to := none } :=
  delete_employee_set_null [cexParent] 2 0 cexParent rfl rfl

/-- Effect on the Task table of deleting a task row: the deleted row leaves
the table, and the declaration
`parent_task = ForeignKey("self", on_delete=models.SET_NULL, ...)`
(models.py lines 61-63) nulls the parent reference of every child of the
deleted row. -/
def deleteTaskFromTasks (db : List Task) (tid : Nat) : List Task :=
  (db.filter (fun t => !(t.id == tid))).map
    (fun t =>
      if t.parent_task == some tid then { t with parent_task := none } else t)

/-- C6: deleting a parent task keeps each of its children, with the parent
reference cleared (the child becomes a top-level item) and every other field
unchanged, and removes only rows with the deleted id — deletion never
cascades. -/
theorem delete_parent_set_null (db : List Task) (tid : Nat) (c : Task)
    (hc : c ∈ db) (hp : c.parent_task = some tid) (hne : c.id ≠ tid) :
    ({ c with parent_task := none } : Task) ∈ deleteTaskFromTasks db tid ∧
    (deleteTaskFromTasks db tid).length =
      (db.filter (fun t => !(t.id == tid))).length := by
  constructor
  · rw [deleteTaskFromTasks, List.mem_map]
    refine ⟨c, ?_, ?_⟩
    · rw [List.mem_filter]
      refine ⟨hc, ?_⟩
      simp [hne]
    · simp [hp]
  · exact List.length_map _ _

/-- Witness for C6: deleting the parent task (id 20) of the two-task
scenario keeps its child (id 10) with a cleared parent reference. -/
theorem delete_parent_set_null_witness :
    ({ cexImportant with parent_task := none } : Task) ∈
      deleteTaskFromTasks cexDb 20 ∧
    (deleteTaskFromTasks cexDb 20).length =
      (cexDb.filter (fun t => !(t.id == 20))).length :=
  delete_parent_set_null cexDb 20 cexImportant (by decide) rfl (by decide)

/-- Python `str.isalpha()`: non-empty and every character alphabetic, over
the model's character predicate. -/
def pyIsAlpha (s : String) : Bool :=
  !(s.data.isEmpty) && s.data.all Char.isAlpha

/-- `EmployeeSerializer.validate_first_name` (serializers.py lines 19-22). -/
def validate_first_name (v : String) : List (String × String) :=
  if pyIsAlpha v then [] else [("first_name", "Имя должно содержать только буквы.")]

/-- `EmployeeSerializer.validate_last_name` (serializers.py lines 24-27). -/
def validate_last_name (v : String) : List (String × String) :=
  if pyIsAlpha v then [] else [("last_name", "Фамилия должна содержать только буквы.")]

/-- `EmployeeSerializer.validate_middle_name` (serializers.py lines 29-32). -/
def validate_middle_name (v : String) : List (String × String) :=
  if pyIsAlpha v then [] else [("middle_name", "Отчество должно содержать только буквы.")]

/-- `EmployeeSerializer.validate_hired_date` (serializers.py lines 34-37). -/
def validate_hired_date (today : Nat) (v : Nat) : List (String × String) :=
  if today < v then [("hired_date", "Дата приема на работу не может быть в будущем.")] else []

/-- `TaskSerializer.validate_due_date` (serializers.py lines 89-92). -/
def validate_due_date (today : Nat) (v : Nat) : List (String × String) :=
  if v < today then [("due_date", "Срок выполнения задачи не может быть в прошлом.")] else []

/-- Incoming payload of an Employee create/update request; an absent optional
field is `none` and is not validated. -/
structure EmployeeInput where
  last_name : String
  first_name : String
  middle_name : Option String
  position : String
  department : Option String
  hired_date : Option Nat
deriving DecidableEq, Repr

/-- Per-field errors the serializer collects for an Employee payload, as
(field, message) pairs in field order. -/
def employeeValidationErrors (today : Nat) (inp : EmployeeInput) :
    List (String × String) :=
  validate_last_name inp.last_name ++
  validate_first_name inp.first_name ++
  (match inp.middle_name with
   | some m => validate_middle_name m
   | none => []) ++
  (match inp.hired_date with
   | some d => validate_hired_date today d
   | none => [])

/-- Row created from a valid Employee payload. -/
def employeeOfInput (nid : Nat) (inp : EmployeeInput) : Employee :=
  { id := nid, last_name := inp.last_name, first_name := inp.first_name,
    middle_name := inp.middle_name, position := inp.position,
    department := inp.department, hired_date := inp.hired_date }

/-- An Employee create request: on validation failure the table is left
untouched and the per-field errors are reported; otherwise the row is
appended. -/
def employeeCreate (today : Nat) (db : List Employee) (nid : Nat)
    (inp : EmployeeInput) : List Employee × List (String × String) :=
  let errs := employeeValidationErrors today inp
  if errs = [] then (db ++ [employeeOfInput nid inp], []) else (db, errs)

/-- Incoming payload of a Task create/update request. -/
structure TaskInput where
  name : String
  description : Option String
  parent_task : Option Nat
  assigned_to : Option Nat
  due_date : Nat
  status : Status
deriving DecidableEq, Repr

/-- Row created from a valid Task payload. -/
def taskOfInput (nid : Nat) (inp : TaskInput) : Task :=
  { id := nid, name := inp.name, description := inp.description,
    parent_task := inp.parent_task, assigned_to := inp.assigned_to,
    due_date := inp.due_date, status := inp.status }

/-- A Task create request: on a past due date the table is left untouched
and the per-field error is reported; otherwise the row is appended. -/
def taskCreate (today : Nat) (db : List Task) (nid : Nat)
    (inp : TaskInput) : List Task × List (String × String) :=
  let errs := validate_due_date today inp.due_date
  if errs = [] then (db ++ [taskOfInput nid inp], []) else (db, errs)

theorem employeeCreate_of_errs {today nid : Nat} {db : List Employee}
    {inp : EmployeeInput} (h : employeeValidationErrors today inp ≠ []) :
    employeeCreate today db nid inp =
      (db, employeeValidationErrors today inp) := by
  rw [employeeCreate]
  exact if_neg h

/-- C7: a non-alphabetic name field, a hire date after today, or a due date
before today is rejected with a message naming the field, leaving the table
untouched; a payload satisfying all the conditions passes validation and is
written. -/
theorem field_validation_contract (today nid : Nat) (edb : List Employee)
    (tdb : List Task) (einp : EmployeeInput) (tinp : TaskInput) :
    ((pyIsAlpha einp.first_name = false →
        (employeeCreate today edb nid einp).1 = edb ∧
        ("first_name", "Имя должно содержать только буквы.") ∈
          (employeeCreate today edb nid einp).2) ∧
     (pyIsAlpha einp.last_name = false →
        (employeeCreate today edb nid einp).1 = edb ∧
        ("last_name", "Фамилия должна содержать только буквы.") ∈
          (employeeCreate today edb nid einp).2) ∧
     (∀ m, einp.middle_name = some m → pyIsAlpha m = false →
        (employeeCreate today edb nid einp).1 = edb ∧
        ("middle_name", "Отчество должно содержать только буквы.") ∈
          (employeeCreate today edb nid einp).2) ∧
     (∀ d, einp.hired_date = some d → today < d →
        (employeeCreate today edb nid einp).1 = edb ∧
        ("hired_date", "Дата приема на работу не может быть в будущем.") ∈
          (employeeCreate today edb nid einp).2) ∧
     (pyIsAlpha einp.first_name = true → pyIsAlpha einp.last_name = true →
      (∀ m, einp.middle_name = some m → pyIsAlpha m = true) →
      (∀ d, einp.hired_date = some d → d ≤ today) →
        employeeCreate today edb nid einp =
          (edb ++ [employeeOfInput nid einp], []))) ∧
    ((tinp.due_date < today →
        (taskCreate today tdb nid tinp).1 = tdb ∧
        ("due_date", "Срок выполнения задачи не может быть в прошлом.") ∈
          (taskCreate today tdb nid tinp).2) ∧
     (today ≤ tinp.due_date →
        taskCreate today tdb nid tinp = (tdb ++ [taskOfInput nid tinp], []))) := by
  constructor
  · refine ⟨?_, ?_, ?_, ?_, ?_⟩
    · intro h
      have hm : ("first_name", "Имя должно содержать только буквы.") ∈
          employeeValidationErrors today einp := by
        rw [employeeValidationErrors, validate_first_name, h]
        simp
      rw [employeeCreate_of_errs (List.ne_nil_of_mem hm)]
      exact ⟨rfl, hm⟩
    · intro h
      have hm : ("last_name", "Фамилия должна содержать только буквы.") ∈
          employeeValidationErrors today einp := by
        rw [employeeValidationErrors, validate_last_name, h]
        simp
      rw [employeeCreate_of_errs (List.ne_nil_of_mem hm)]
      exact ⟨rfl, hm⟩
    · intro m hmn h
      have hm : ("middle_name", "Отчество должно содержать только буквы.") ∈
          employeeValidationErrors today einp := by
        simp [employeeValidationErrors, hmn, validate_middle_name, h]
      rw [employeeCreate_of_errs (List.ne_nil_of_mem hm)]
      exact ⟨rfl, hm⟩
    · intro d hdn h
      have hm : ("hired_date", "Дата приема на работу не может быть в будущем.") ∈
          employeeValidationErrors today einp := by
        simp [employeeValidationErrors, hdn, validate_hired_date, h]
      rw [employeeCreate_of_errs (List.ne_nil_of_mem hm)]
      exact ⟨rfl, hm⟩
    · intro h1 h2 h3 h4
      have herr : employeeValidationErrors today einp = [] := by
        cases hmn : einp.middle_name with
        | none =>
            cases hdn : einp.hired_date with
            | none =>
                simp [employeeValidationErrors, validate_first_name,
                  validate_last_name, h1, h2, hmn, hdn]
            | some d =>
                simp [employeeValidationErrors, validate_first_name,
                  validate_last_name, validate_hired_date, h1, h2, hmn, hdn,
                  Nat.not_lt.mpr (h4 d hdn)]
        | some m =>
            cases hdn : einp.hired_date with
            | none =>
                simp [employeeValidationErrors, validate_first_name,
                  validate_last_name, validate_middle_name, h1, h2,
                  h3 m hmn, hmn, hdn]
            | some d =>
                simp [employeeValidationErrors, validate_first_name,
                  validate_last_name, validate_middle_name,
                  validate_hired_date, h1, h2, h3 m hmn, hmn, hdn,
                  Nat.not_lt.mpr (h4 d hdn)]
      rw [employeeCreate, herr]
      rfl
  · constructor
    · intro h
      have hm : ("due_date", "Срок выполнения задачи не может быть в прошлом.") ∈
          validate_due_date today tinp.due_date := by
        rw [validate_due_date, if_pos h]
        simp
      rw [taskCreate]
      rw [if_neg (List.ne_nil_of_mem hm)]
      exact ⟨rfl, hm⟩
    · intro h
      have herr : validate_due_date today tinp.due_date = [] := by
        rw [validate_due_date, if_neg (Nat.not_lt.mpr h)]
      rw [taskCreate, herr]
      rfl

/-- Concrete invalid Employee payload: a digit in the first name. -/
def cexBadEmpInput : EmployeeInput :=
  { last_name := "Ivanov", first_name := "Ivan1", middle_name := none,
    position := "Dev", department := none, hired_date := none }

/-- Concrete Task payload due on day 50. -/
def cexTaskInput : TaskInput :=
  { name := "T", description := none, parent_task := none,
    assigned_to := none, due_date := 50, status := Status.new }

/-- Witness for C7: with today = 100, the payload with first name `Ivan1`
is rejected without touching the table, and the task payload due on day 50
is rejected as past-due. -/
theorem field_validation_contract_witness :
    ((employeeCreate 100 [] 1 cexBadEmpInput).1 = [] ∧
      ("first_name", "Имя должно содержать только буквы.") ∈
        (employeeCreate 100 [] 1 cexBadEmpInput).2) ∧
    ((taskCreate 100 [] 1 cexTaskInput).1 = [] ∧
      ("due_date", "Срок выполнения задачи не может быть в прошлом.") ∈
        (taskCreate 100 [] 1 cexTaskInput).2) :=
  ⟨(field_validation_contract 100 1 [] [] cexBadEmpInput cexTaskInput).1.1
      (by decide),
   (field_validation_contract 100 1 [] [] cexBadEmpInput cexTaskInput).2.1
      (by decide)⟩
